import Mathlib

/-!
Shallow embedding of the configuration-driven factory layer of the H-PON
repository: `src/models/model_factory.py` and `src/data/data_factory.py`.

Conventions of the embedding:

* Python floats are modelled as rationals (`ℚ`); every quantity the factories
  compute is exact arithmetic on configuration values.
* Each neural-network module class instantiated by the factories lives in a
  module outside the excerpt (`src/nn/...`, `src/models/...`); the factory
  layer's whole job is to choose constructor arguments, so each such class is
  modelled as a record of the arguments its constructor receives.
* `torch.nn.Module.cuda()` is called with no device argument throughout the
  source.  PyTorch documents `cuda(device=None)` as moving the module's
  parameters to the *current* CUDA device (`torch.cuda.current_device()`,
  index 0 unless a caller changed it), not to any device named in the
  configuration.  The embedding therefore threads the ambient current device
  through `build_model` and `build_criterion` as an explicit `cur` argument.
* `torch.nn.DataParallel(module, device_ids)` stores the wrapped module
  unmoved, records `device_ids`, and defaults its output (primary) device to
  `device_ids[0]`; the `Placed.dataParallel` constructor records exactly that.
* `raise ValueError(msg)` is modelled as `Except.error msg`; a factory that
  raises before constructing anything returns `Except.error` without ever
  producing a model value, which is how atomicity is expressed here.
-/

namespace HPON

/-- Python `functools.reduce(operator.mul, xs)`: left fold of `*` over a list
seeded with its first element.  On an empty list `reduce` raises `TypeError`,
modelled as `none`. -/
def reduceMul : List ℕ → Option ℕ
  | [] => none
  | x :: xs => some (xs.foldl (· * ·) x)

/-- The nested `config.topdown` record (channel/layer/stride lists and block
type for the topdown decoder). -/
structure TopdownConfig where
  channels : ℕ
  layers : List ℕ
  strides : List ℕ
  blocktype : String
  deriving DecidableEq

/-- The nested `config.focal` record (focal-loss hyperparameters). -/
structure FocalConfig where
  alpha : ℚ
  gamma : ℚ
  deriving DecidableEq

/-- The nested `config.ved` record. -/
structure VedConfig where
  bottleneck_dim : ℕ
  deriving DecidableEq

/-- The nested `config.vpn` record. -/
structure VpnConfig where
  output_size : ℕ × ℕ
  fc_dim : ℕ
  deriving DecidableEq

/-- The immutable configuration record threaded through every builder.  Only
the fields the two factory modules read are modelled. -/
structure Config where
  gpus : List ℕ
  map_resolution : ℚ
  map_extents : ℚ × ℚ × ℚ × ℚ
  ymin : ℚ
  ymax : ℚ
  focal_length : ℚ
  vtfm_channels : ℕ
  htfm_channels : ℕ
  topdown : TopdownConfig
  bayesian : Bool
  num_class : ℕ
  prior : ℚ
  xent_weight : ℚ
  uncert_weight : ℚ
  kld_weight : ℚ
  weight_mode : String
  loss_fn : String
  focal : FocalConfig
  img_size : ℕ × ℕ
  ved : VedConfig
  vpn : VpnConfig
  nuscenes_version : String
  dataroot : String
  label_root : String
  hold_out_calibration : Bool
  hflip : ℚ
  batch_size : ℕ
  epoch_size : ℕ
  num_workers : ℕ
  deriving DecidableEq

/-- `FPN50()` frontend: constructed with no arguments. -/
structure FPN50 where
  deriving DecidableEq

/-- `VerticalTransformerPyramid(in_channels, channels, resolution, extents,
ymin, ymax, focal_length)` as the record of its constructor arguments. -/
structure VerticalTransformerPyramid where
  in_channels : ℕ
  channels : ℕ
  resolution : ℚ
  extents : ℚ × ℚ × ℚ × ℚ
  ymin : ℚ
  ymax : ℚ
  focal_length : ℚ
  deriving DecidableEq

/-- `HorizontalTransformerPyramid(in_channels, vchannels, channels,
resolution, extents, ymin, ymax, focal_length, img_width, htfm_method)` as the
record of its constructor arguments. -/
structure HorizontalTransformerPyramid where
  in_channels : ℕ
  vchannels : ℕ
  channels : ℕ
  resolution : ℚ
  extents : ℚ × ℚ × ℚ × ℚ
  ymin : ℚ
  ymax : ℚ
  focal_length : ℚ
  img_width : ℕ
  htfm_method : String
  deriving DecidableEq

/-- `TopdownNetwork(in_channels, channels, layers, strides, blocktype)` as the
record of its constructor arguments. -/
structure TopdownNetwork where
  in_channels : ℕ
  channels : ℕ
  layers : List ℕ
  strides : List ℕ
  blocktype : String
  deriving DecidableEq

/-- The classifier head: `LinearClassifier(in_channels, num_class)` or
`BayesianClassifier(in_channels, num_class)`, followed in both cases by
`classifier.initialise(config.prior)`, recorded in the `prior` field. -/
inductive Classifier where
  | linear (in_channels : ℕ) (num_class : ℕ) (prior : ℚ)
  | bayesian (in_channels : ℕ) (num_class : ℕ) (prior : ℚ)
  deriving DecidableEq

/-- `PyramidOccupancyNetwork(frontend, transformer, topdown, classifier)`. -/
structure PyramidOccupancyNetwork where
  frontend : FPN50
  transformer : VerticalTransformerPyramid
  topdown : TopdownNetwork
  classifier : Classifier
  deriving DecidableEq

/-- `HorizontallyAwarePyramidOccupancyNetwork(frontend, v_transformer,
h_transformer, topdown, classifier)`. -/
structure HorizontallyAwarePyramidOccupancyNetwork where
  frontend : FPN50
  v_transformer : VerticalTransformerPyramid
  h_transformer : HorizontalTransformerPyramid
  topdown : TopdownNetwork
  classifier : Classifier
  deriving DecidableEq

/-- `VariationalEncoderDecoder(num_class, bottleneck_dim, map_extents,
map_resolution)`. -/
structure VariationalEncoderDecoder where
  num_class : ℕ
  bottleneck_dim : ℕ
  map_extents : ℚ × ℚ × ℚ × ℚ
  map_resolution : ℚ
  deriving DecidableEq

/-- `VPNModel(num_views, num_class, output_size, fc_dim, map_extents,
map_resolution)`. -/
structure VPNModel where
  num_views : ℕ
  num_class : ℕ
  output_size : ℕ × ℕ
  fc_dim : ℕ
  map_extents : ℚ × ℚ × ℚ × ℚ
  map_resolution : ℚ
  deriving DecidableEq

/-- The sum of the four architecture families `build_model` can return. -/
inductive Model where
  | pon (net : PyramidOccupancyNetwork)
  | hpon (net : HorizontallyAwarePyramidOccupancyNetwork)
  | ved (net : VariationalEncoderDecoder)
  | vpn (net : VPNModel)
  deriving DecidableEq

/-- Device placement of a constructed object.  `host` is the default (CPU)
placement; `cuda x d` is the object after `x.cuda()` moved its parameters to
CUDA device `d`; `dataParallel x d ids out` is `torch.nn.DataParallel`
wrapping `x` (whose parameters live on device `d`) with `device_ids = ids`
and output (primary) device `out` (PyTorch defaults it to `ids[0]`). -/
inductive Placed (α : Type) where
  | host (payload : α)
  | cuda (payload : α) (device : ℕ)
  | dataParallel (payload : α) (module_device : ℕ) (device_ids : List ℕ)
      (output_device : Option ℕ)
  deriving DecidableEq

/-- The wrapped object, regardless of placement. -/
def Placed.payload {α : Type} : Placed α → α
  | .host x => x
  | .cuda x _ => x
  | .dataParallel x _ _ _ => x

/-- The CUDA device the object's own parameters live on (`none` = host). -/
def Placed.residence {α : Type} : Placed α → Option ℕ
  | .host _ => none
  | .cuda _ d => some d
  | .dataParallel _ d _ _ => some d

/-- The device list of the replication wrapper, when one is present. -/
def Placed.wrapperIds {α : Type} : Placed α → Option (List ℕ)
  | .dataParallel _ _ ids _ => some ids
  | _ => none

/-- The replication wrapper's output (primary) device, when one is present. -/
def Placed.outputDevice {α : Type} : Placed α → Option ℕ
  | .dataParallel _ _ _ out => out
  | _ => none

/-- `build_pyramid_occupancy_network(config)` (model_factory.py:68-91).
`tdOut` models the `out_channels` attribute of the external `TopdownNetwork`
class.  Modelled from the spec: `src/nn/topdown.py`, which computes
`out_channels` from the constructor arguments, is outside the excerpt, so the
attribute is an abstract function of the constructed record; no claim depends
on its value.  `reduce(mul, strides)` raises `TypeError` on an empty stride
list, modelled as `Except.error`. -/
def build_pyramid_occupancy_network (config : Config)
    (tdOut : TopdownNetwork → ℕ) : Except String PyramidOccupancyNetwork :=
  let frontend : FPN50 := {}
  match reduceMul config.topdown.strides with
  | none => Except.error "TypeError: reduce() of empty iterable with no initial value"
  | some strideProd =>
    let tfm_resolution : ℚ := config.map_resolution * strideProd
    let transformer : VerticalTransformerPyramid :=
      ⟨256, config.vtfm_channels, tfm_resolution, config.map_extents,
        config.ymin, config.ymax, config.focal_length⟩
    let topdown : TopdownNetwork :=
      ⟨config.vtfm_channels, config.topdown.channels, config.topdown.layers,
        config.topdown.strides, config.topdown.blocktype⟩
    let classifier : Classifier :=
      if config.bayesian then
        Classifier.bayesian (tdOut topdown) config.num_class config.prior
      else
        Classifier.linear (tdOut topdown) config.num_class config.prior
    Except.ok ⟨frontend, transformer, topdown, classifier⟩

/-- `build_horizontally_aware_pyramid_occupancy_network(config, htfm_method)`
(model_factory.py:94-139).  Same conventions as the pon builder. -/
def build_horizontally_aware_pyramid_occupancy_network (config : Config)
    (htfm_method : String) (tdOut : TopdownNetwork → ℕ) :
    Except String HorizontallyAwarePyramidOccupancyNetwork :=
  let frontend : FPN50 := {}
  match reduceMul config.topdown.strides with
  | none => Except.error "TypeError: reduce() of empty iterable with no initial value"
  | some strideProd =>
    let tfm_resolution : ℚ := config.map_resolution * strideProd
    let v_transformer : VerticalTransformerPyramid :=
      ⟨256, config.vtfm_channels, tfm_resolution, config.map_extents,
        config.ymin, config.ymax, config.focal_length⟩
    let h_transformer : HorizontalTransformerPyramid :=
      ⟨256, config.vtfm_channels, config.htfm_channels, tfm_resolution,
        config.map_extents, config.ymin, config.ymax, config.focal_length,
        config.img_size.1, htfm_method⟩
    let topdown : TopdownNetwork :=
      ⟨config.vtfm_channels + config.htfm_channels, config.topdown.channels,
        config.topdown.layers, config.topdown.strides, config.topdown.blocktype⟩
    let classifier : Classifier :=
      if config.bayesian then
        Classifier.bayesian (tdOut topdown) config.num_class config.prior
      else
        Classifier.linear (tdOut topdown) config.num_class config.prior
    Except.ok ⟨frontend, v_transformer, h_transformer, topdown, classifier⟩

/-- `build_variational_encoder_decoder(config)` (model_factory.py:145-150). -/
def build_variational_encoder_decoder (config : Config) :
    VariationalEncoderDecoder :=
  ⟨config.num_class, config.ved.bottleneck_dim, config.map_extents,
    config.map_resolution⟩

/-- `build_view_parsing_network(config)` (model_factory.py:153-157): the first
constructor argument is the literal `1`. -/
def build_view_parsing_network (config : Config) : VPNModel :=
  ⟨1, config.num_class, config.vpn.output_size, config.vpn.fc_dim,
    config.map_extents, config.map_resolution⟩

/-- The dispatch part of `build_model` (model_factory.py:21-32): four string
branches, the `hpon` branch fixing `htfm_method='stack'`, and a trailing
`raise ValueError("Unknown model name '{}'".format(model_name))`. -/
def buildBaseModel (model_name : String) (config : Config)
    (tdOut : TopdownNetwork → ℕ) : Except String Model :=
  if model_name = "pon" then
    (build_pyramid_occupancy_network config tdOut).map Model.pon
  else if model_name = "hpon" then
    (build_horizontally_aware_pyramid_occupancy_network config "stack" tdOut).map
      Model.hpon
  else if model_name = "ved" then
    Except.ok (Model.ved (build_variational_encoder_decoder config))
  else if model_name = "vpn" then
    Except.ok (Model.vpn (build_view_parsing_network config))
  else
    Except.error ("Unknown model name '" ++ model_name ++ "'")

/-- The device-placement part of `build_model` (model_factory.py:34-37):
`if len(config.gpus) > 1: model = nn.DataParallel(model.cuda(), config.gpus)`
`elif len(config.gpus) == 1: model.cuda()`.  `cur` is the ambient current
CUDA device that a bare `.cuda()` targets. -/
def placeModel (gpus : List ℕ) (cur : ℕ) (model : Model) : Placed Model :=
  if 1 < gpus.length then
    Placed.dataParallel model cur gpus gpus.head?
  else if gpus.length = 1 then
    Placed.cuda model cur
  else
    Placed.host model

/-- `build_model(model_name, config)` (model_factory.py:21-39): dispatch then
device placement; an unknown name raises before the placement block runs. -/
def build_model (model_name : String) (config : Config)
    (tdOut : TopdownNetwork → ℕ) (cur : ℕ) : Except String (Placed Model) :=
  (buildBaseModel model_name config tdOut).map (placeModel config.gpus cur)

/-- The four loss-function objects `build_criterion` can construct, each a
record of its constructor arguments. -/
inductive Criterion where
  | vae (prior xent_weight uncert_weight : ℚ) (weight_mode : String)
      (kld_weight : ℚ)
  | focal (alpha gamma : ℚ)
  | priorOffset (prior : ℚ)
  | occupancy (prior xent_weight uncert_weight : ℚ) (weight_mode : String)
  deriving DecidableEq

/-- `build_criterion(model_name, config)` (model_factory.py:42-64): a
first-match-wins dispatch (`ved`, then `loss_fn == 'focal'`, then
`loss_fn == 'prior'`, then the default `OccupancyCriterion`), followed by
`if len(config.gpus) > 0: criterion.cuda()` — a bare `.cuda()` targeting the
ambient current device `cur`, and never any `DataParallel` wrapping. -/
def build_criterion (model_name : String) (config : Config) (cur : ℕ) :
    Placed Criterion :=
  let criterion : Criterion :=
    if model_name = "ved" then
      Criterion.vae config.prior config.xent_weight config.uncert_weight
        config.weight_mode config.kld_weight
    else if config.loss_fn = "focal" then
      Criterion.focal config.focal.alpha config.focal.gamma
    else if config.loss_fn = "prior" then
      Criterion.priorOffset config.prior
    else
      Criterion.occupancy config.prior config.xent_weight
        config.uncert_weight config.weight_mode
  if 0 < config.gpus.length then
    Placed.cuda criterion cur
  else
    Placed.host criterion

/-- Modelled from the spec: the fixed scene splits `TRAIN_SCENES`,
`VAL_SCENES`, `CALIBRATION_SCENES` live in `src/data/nuscenes/splits.py`,
which is outside the excerpt; the spec describes them only as fixed named
scene sets, so they are an abstract record the data factory reads. -/
structure NuScenesSplits where
  TRAIN_SCENES : List String
  VAL_SCENES : List String
  CALIBRATION_SCENES : List String
  deriving DecidableEq

/-- `NuScenes(version, dataroot)`: the third-party catalog object, modelled as
the record of its constructor arguments.  (`os.path.expandvars` substitutes
environment variables into the path; the substitution is external and no
claim depends on the path, so the unexpanded path is recorded.) -/
structure NuScenesCatalog where
  version : String
  dataroot : String
  deriving DecidableEq

/-- Datasets the data factory builds: the per-source adapter
`NuScenesMapDataset(nuscenes, label_root, image_size, scene_names)` and the
augmentation decorator `AugmentedMapDataset(dataset, hflip)`. -/
inductive MapDataset where
  | nuscenes (catalog : NuScenesCatalog) (label_root : String)
      (img_size : ℕ × ℕ) (scene_names : List String)
  | augmented (dataset : MapDataset) (hflip : ℚ)
  deriving DecidableEq

/-- The scene list of a base (non-augmented) dataset. -/
def MapDataset.sceneNames : MapDataset → Option (List String)
  | .nuscenes _ _ _ scene_names => some scene_names
  | .augmented _ _ => none

/-- Whether the object is an instance of the augmentation wrapper type
`AugmentedMapDataset`. -/
def MapDataset.isAugmented : MapDataset → Bool
  | .augmented _ _ => true
  | _ => false

/-- Python `list(set(a) - set(b))`: the elements of `a` not in `b`, without
duplicates, in an order the `set` type does not specify; modelled as a
deduplicated filter (set-equal to any order Python may produce). -/
def pySetDiff (a b : List String) : List String :=
  (a.filter (fun s => decide (s ∉ b))).dedup

/-- `build_nuscenes_datasets(config)` (data_factory.py:14-29): constructs the
catalog, drops the calibration scenes from the training split when
`config.hold_out_calibration` is set, and builds the train dataset from the
resulting scenes and the val dataset always from `VAL_SCENES`.  (The
`print` progress line is a side effect with no bearing on the result.) -/
def build_nuscenes_datasets (splits : NuScenesSplits) (config : Config) :
    MapDataset × MapDataset :=
  let nuscenes : NuScenesCatalog := ⟨config.nuscenes_version, config.dataroot⟩
  let train_scenes : List String :=
    if config.hold_out_calibration then
      pySetDiff splits.TRAIN_SCENES splits.CALIBRATION_SCENES
    else
      splits.TRAIN_SCENES
  let train_data : MapDataset :=
    MapDataset.nuscenes nuscenes config.label_root config.img_size train_scenes
  let val_data : MapDataset :=
    MapDataset.nuscenes nuscenes config.label_root config.img_size
      splits.VAL_SCENES
  (train_data, val_data)

/-- `build_datasets(dataset_name, config)` (data_factory.py:50-56): only the
`nuscenes` branch is active (the argoverse branch is commented out); an
unknown name raises `ValueError(f"Unknown dataset option '{dataset_name}'")`
before anything is constructed. -/
def build_datasets (dataset_name : String) (splits : NuScenesSplits)
    (config : Config) : Except String (MapDataset × MapDataset) :=
  if dataset_name = "nuscenes" then
    Except.ok (build_nuscenes_datasets splits config)
  else
    Except.error ("Unknown dataset option '" ++ dataset_name ++ "'")

/-- `build_trainval_datasets(dataset_name, config)` (data_factory.py:60-68):
builds the base pair, then wraps only the training dataset in
`AugmentedMapDataset(train_data, config.hflip)`. -/
def build_trainval_datasets (dataset_name : String) (splits : NuScenesSplits)
    (config : Config) : Except String (MapDataset × MapDataset) :=
  (build_datasets dataset_name splits config).map
    (fun pair => (MapDataset.augmented pair.1 config.hflip, pair.2))

/-- The transform resolution as the spec words it: the configured map
resolution multiplied by the product of all topdown-stage strides. -/
def tfmResolutionSpec (config : Config) : ℚ :=
  config.map_resolution * (config.topdown.strides.map (Nat.cast : ℕ → ℚ)).prod

/-- A concrete configuration used by witnesses: one GPU, map resolution 1/4,
topdown strides `[2, 2, 2]`. -/
def exConfig : Config :=
  { gpus := [0]
    map_resolution := 1/4
    map_extents := (-25, 1, 25, 50)
    ymin := -2
    ymax := 4
    focal_length := 630
    vtfm_channels := 64
    htfm_channels := 32
    topdown := { channels := 128, layers := [4, 4], strides := [2, 2, 2],
                 blocktype := "bottleneck" }
    bayesian := false
    num_class := 14
    prior := 1/50
    xent_weight := 1
    uncert_weight := 0
    kld_weight := 1
    weight_mode := "sqrt_inverse"
    loss_fn := "bce"
    focal := { alpha := 1/4, gamma := 2 }
    img_size := (800, 600)
    ved := { bottleneck_dim := 256 }
    vpn := { output_size := (200, 196), fc_dim := 256 }
    nuscenes_version := "v1.0-trainval"
    dataroot := "data/nuscenes"
    label_root := "data/labels"
    hold_out_calibration := false
    hflip := 1/2
    batch_size := 12
    epoch_size := 50000
    num_workers := 8 }

/-- The witness configurations' stand-in for the external
`TopdownNetwork.out_channels` attribute. -/
def exTdOut : TopdownNetwork → ℕ := fun _ => 256

/-- `exConfig` with a single configured GPU whose id is 1 (not the process's
current CUDA device, which is 0 by default). -/
def exConfigGpu1 : Config := { exConfig with gpus := [1] }

/-- `exConfig` with two configured GPUs. -/
def exConfigMulti : Config := { exConfig with gpus := [0, 1] }

/-- `exConfig` with no configured GPU. -/
def exConfigNoGpu : Config := { exConfig with gpus := [] }

/-- `exConfig` with the calibration hold-out flag set. -/
def exConfigHold : Config := { exConfig with hold_out_calibration := true }

/-- `exConfig` with model-independent focal loss selected. -/
def exConfigFocal : Config := { exConfig with loss_fn := "focal" }

/-- A concrete scene-split record used by witnesses. -/
def exSplits : NuScenesSplits :=
  { TRAIN_SCENES := ["scene-0001", "scene-0002", "scene-0003"]
    VAL_SCENES := ["scene-0100"]
    CALIBRATION_SCENES := ["scene-0002"] }

/-- The CUDA residence of the model a successful `build_model` call returns
(`none` for a failed call or a model left on host). -/
def builtModelResidence (r : Except String (Placed Model)) : Option ℕ :=
  match r with
  | Except.ok m => m.residence
  | Except.error _ => none

/-- The placed model `build_model "vpn"` produces under `exConfigMulti`
(two configured GPUs) with current CUDA device 0. -/
def exPlacedMulti : Placed Model :=
  placeModel exConfigMulti.gpus 0
    (Model.vpn (build_view_parsing_network exConfigMulti))

/-- The combination method of the horizontal transformer pyramid, when the
model belongs to the horizontally-aware family. -/
def Model.hponMethod : Model → Option String
  | .hpon net => some net.h_transformer.htfm_method
  | _ => none

/-- The topdown decoder's input channel count, for the two families that have
a topdown decoder. -/
def Model.topdownInChannels : Model → Option ℕ
  | .pon net => some net.topdown.in_channels
  | .hpon net => some net.topdown.in_channels
  | _ => none

/-- The placed model `build_model "hpon"` produces under `exConfig` with
current CUDA device 0 (extracted from the successful result). -/
def exPlacedHpon : Placed Model :=
  ((build_model "hpon" exConfig exTdOut 0).toOption).getD
    (Placed.host (Model.vpn (build_view_parsing_network exConfig)))

/-- The placed model `build_model "pon"` produces under `exConfig` with
current CUDA device 0 (extracted from the successful result). -/
def exPlacedPon : Placed Model :=
  ((build_model "pon" exConfig exTdOut 0).toOption).getD
    (Placed.host (Model.vpn (build_view_parsing_network exConfig)))

/-- On a non-empty list, Python's `reduce(mul, xs)` is the list product. -/
theorem reduceMul_cons (x : ℕ) (xs : List ℕ) :
    reduceMul (x :: xs) = some ((x :: xs).prod) := by
  suffices h : ∀ (l : List ℕ) (a : ℕ), l.foldl (· * ·) a = a * l.prod by
    simp [reduceMul, h xs x]
  intro l
  induction l with
  | nil => intro a; simp
  | cons y ys ih =>
    intro a
    simp [List.foldl_cons, ih (a * y), List.prod_cons, mul_assoc]

/-- Device placement never changes the wrapped model. -/
theorem payload_placeModel (gpus : List ℕ) (cur : ℕ) (model : Model) :
    (placeModel gpus cur model).payload = model := by
  unfold placeModel
  by_cases h1 : 1 < gpus.length <;> by_cases h2 : gpus.length = 1 <;>
    simp [h1, h2, Placed.payload]

/-- The loss object `build_criterion` wraps is exactly the four-way
first-match-wins dispatch of model_factory.py:44-58, independent of the
device-placement step. -/
theorem build_criterion_payload (model_name : String) (config : Config)
    (cur : ℕ) :
    (build_criterion model_name config cur).payload =
      if model_name = "ved" then
        Criterion.vae config.prior config.xent_weight config.uncert_weight
          config.weight_mode config.kld_weight
      else if config.loss_fn = "focal" then
        Criterion.focal config.focal.alpha config.focal.gamma
      else if config.loss_fn = "prior" then
        Criterion.priorOffset config.prior
      else
        Criterion.occupancy config.prior config.xent_weight
          config.uncert_weight config.weight_mode := by
  unfold build_criterion
  by_cases hg : 0 < config.gpus.length <;> simp [hg, Placed.payload]

/-- Python `list(set(a) - set(b))` has exactly the elements of `a` that are
not in `b`. -/
theorem pySetDiff_toFinset (a b : List String) :
    (pySetDiff a b).toFinset = a.toFinset \ b.toFinset := by
  ext s
  simp [pySetDiff, List.mem_filter, Finset.mem_sdiff]

/-- C2: whenever the stride list is non-empty (`reduce` needs a non-empty
iterable), both the `pon` builder and the `hpon` builder succeed, the derived
transform resolution equals the configured map resolution times the product
of all topdown-stage strides, and this exact value is the one passed to every
transformer stage either branch constructs: the single vertical pyramid for
`pon`, and both the vertical and the horizontal pyramid for `hpon`. -/
theorem C2_tfm_resolution (config : Config) (htfm_method : String)
    (tdOut : TopdownNetwork → ℕ) (hs : config.topdown.strides ≠ []) :
    (build_pyramid_occupancy_network config tdOut).map
        (fun p => p.transformer.resolution)
      = Except.ok (tfmResolutionSpec config) ∧
    (build_horizontally_aware_pyramid_occupancy_network config htfm_method
          tdOut).map
        (fun h => (h.v_transformer.resolution, h.h_transformer.resolution))
      = Except.ok (tfmResolutionSpec config, tfmResolutionSpec config) := by
  obtain ⟨x, xs, hx⟩ := List.exists_cons_of_ne_nil hs
  have hr : reduceMul config.topdown.strides
      = some config.topdown.strides.prod := by
    rw [hx]; exact reduceMul_cons x xs
  have hcast : ((config.topdown.strides.prod : ℕ) : ℚ)
      = (config.topdown.strides.map (Nat.cast : ℕ → ℚ)).prod :=
    Nat.cast_list_prod (β := ℚ) config.topdown.strides
  constructor
  · simp [build_pyramid_occupancy_network, hr, Except.map,
      tfmResolutionSpec, hcast]
  · simp [build_horizontally_aware_pyramid_occupancy_network, hr, Except.map,
      tfmResolutionSpec, hcast]

/-- C2 witness: with map resolution 1/4 and strides [2, 2, 2] the resolution
passed to the vertical pyramid of `pon` and to both pyramids of `hpon` is
exactly 2. -/
theorem C2_tfm_resolution_witness :
    (build_pyramid_occupancy_network exConfig exTdOut).map
        (fun p => p.transformer.resolution) = Except.ok 2 ∧
    (build_horizontally_aware_pyramid_occupancy_network exConfig "stack"
          exTdOut).map
        (fun h => (h.v_transformer.resolution, h.h_transformer.resolution))
      = Except.ok (2, 2) := by
  have h := C2_tfm_resolution exConfig "stack" exTdOut (by decide)
  have hv : tfmResolutionSpec exConfig = 2 := by
    norm_num [tfmResolutionSpec, exConfig]
  rw [hv] at h
  exact h

/-- C3: `build_criterion` dispatches first-match-wins in the order: model
family `ved` (variational criterion), else loss name `focal`, else loss name
`prior`, else the standard occupancy criterion — so with family `ved` the
variational criterion is selected whatever the loss name says. -/
theorem C3_criterion_precedence (model_name : String) (config : Config)
    (cur : ℕ) :
    (model_name = "ved" →
      (build_criterion model_name config cur).payload
        = Criterion.vae config.prior config.xent_weight config.uncert_weight
            config.weight_mode config.kld_weight) ∧
    (model_name ≠ "ved" → config.loss_fn = "focal" →
      (build_criterion model_name config cur).payload
        = Criterion.focal config.focal.alpha config.focal.gamma) ∧
    (model_name ≠ "ved" → config.loss_fn ≠ "focal" → config.loss_fn = "prior" →
      (build_criterion model_name config cur).payload
        = Criterion.priorOffset config.prior) ∧
    (model_name ≠ "ved" → config.loss_fn ≠ "focal" → config.loss_fn ≠ "prior" →
      (build_criterion model_name config cur).payload
        = Criterion.occupancy config.prior config.xent_weight
            config.uncert_weight config.weight_mode) := by
  refine ⟨?_, ?_, ?_, ?_⟩
  · intro h1; simp [build_criterion_payload, h1]
  · intro h1 h2; simp [build_criterion_payload, h1, h2]
  · intro h1 h2 h3; simp [build_criterion_payload, h1, h2, h3]
  · intro h1 h2 h3; simp [build_criterion_payload, h1, h2, h3]

/-- C3 witness: with family `ved` and `loss_fn = "focal"` configured, the
selected criterion is the variational one — precedence beats name matching. -/
theorem C3_criterion_precedence_witness :
    (build_criterion "ved" exConfigFocal 0).payload
      = Criterion.vae exConfigFocal.prior exConfigFocal.xent_weight
          exConfigFocal.uncert_weight exConfigFocal.weight_mode
          exConfigFocal.kld_weight ∧
    exConfigFocal.loss_fn = "focal" :=
  ⟨(C3_criterion_precedence "ved" exConfigFocal 0).1 rfl, rfl⟩

/-- C10: for any family other than `ved` and any loss name other than
`focal` and `prior` — misspelled or arbitrary strings included —
`build_criterion` returns (it is total, there is no unknown-name branch) and
the object it wraps is the standard occupancy criterion. -/
theorem C10_criterion_total (model_name : String) (config : Config) (cur : ℕ)
    (h1 : model_name ≠ "ved") (h2 : config.loss_fn ≠ "focal")
    (h3 : config.loss_fn ≠ "prior") :
    (build_criterion model_name config cur).payload
      = Criterion.occupancy config.prior config.xent_weight
          config.uncert_weight config.weight_mode := by
  simp [build_criterion_payload, h1, h2, h3]

/-- C10 witness: an arbitrary family name and a misspelled loss name still
yield the standard occupancy criterion. -/
theorem C10_criterion_total_witness :
    (build_criterion "resnet" { exConfig with loss_fn := "focall" } 0).payload
      = Criterion.occupancy exConfig.prior exConfig.xent_weight
          exConfig.uncert_weight exConfig.weight_mode :=
  C10_criterion_total "resnet" { exConfig with loss_fn := "focall" } 0
    (by decide) (by decide) (by decide)

/-- C1 (counterexample): with exactly one configured device whose id is 1 and
the process's current CUDA device at its default 0, the bare `model.cuda()`
of model_factory.py:37 places the model on device 0, not on `gpus[0] = 1` —
refuting "L=1 moves the model so it resides on exactly device[0]". -/
theorem C1_counterexample :
    exConfigGpu1.gpus = [1] ∧
    builtModelResidence (build_model "vpn" exConfigGpu1 exTdOut 0) = some 0 ∧
    builtModelResidence (build_model "vpn" exConfigGpu1 exTdOut 0)
      ≠ some exConfigGpu1.gpus.headI :=
  ⟨rfl, rfl, by decide⟩

/-- C1 (amended): for every model `build_model` returns, zero configured
devices leave it unwrapped on host placement; exactly one moves it (unwrapped)
to the process's current CUDA device `cur` — which is `gpus[0]` only when the
current device happens to be it; more than one moves it to `cur` and wraps it
in a `DataParallel` replication layer enumerating exactly the configured
device list, whose primary (output) device defaults to `gpus[0]`. -/
theorem C1_device_policy (model_name : String) (config : Config)
    (tdOut : TopdownNetwork → ℕ) (cur : ℕ) (m : Placed Model)
    (h : build_model model_name config tdOut cur = Except.ok m) :
    (config.gpus.length = 0 → m = Placed.host m.payload) ∧
    (config.gpus.length = 1 → m = Placed.cuda m.payload cur) ∧
    (1 < config.gpus.length →
      m = Placed.dataParallel m.payload cur config.gpus config.gpus.head?) := by
  obtain ⟨model0, rfl⟩ : ∃ model0, m = placeModel config.gpus cur model0 := by
    unfold build_model at h
    cases hb : buildBaseModel model_name config tdOut with
    | error e => rw [hb] at h; simp [Except.map] at h
    | ok model0 => rw [hb] at h; simp [Except.map] at h; exact ⟨model0, h.symm⟩
  rw [payload_placeModel]
  refine ⟨?_, ?_, ?_⟩ <;> intro hl <;> unfold placeModel
  · simp [hl]
  · simp [hl]
  · rw [if_pos hl]

/-- C1 witness: with two configured devices `[0, 1]` and current device 0,
the returned object is the `DataParallel` wrapper over exactly `[0, 1]` with
primary device 0. -/
theorem C1_device_policy_witness :
    exPlacedMulti
      = Placed.dataParallel exPlacedMulti.payload 0 exConfigMulti.gpus
          exConfigMulti.gpus.head? :=
  (C1_device_policy "vpn" exConfigMulti exTdOut 0 exPlacedMulti rfl).2.2
    (by decide)

/-- C5 (counterexample): with one configured device of id 1 and the current
CUDA device at its default 0, the bare `criterion.cuda()` of
model_factory.py:61 places the criterion on device 0, not on `gpus[0] = 1` —
refuting "build_criterion moves the returned criterion to device[0]". -/
theorem C5_counterexample :
    exConfigGpu1.gpus = [1] ∧
    (build_criterion "pon" exConfigGpu1 0).residence = some 0 ∧
    (build_criterion "pon" exConfigGpu1 0).residence
      ≠ some exConfigGpu1.gpus.headI :=
  ⟨rfl, rfl, by decide⟩

/-- C5 (amended): the criterion is never wrapped in a replication layer; with
no configured device it stays on host; with at least one configured device it
is moved to the process's current CUDA device `cur` (which is `gpus[0]` only
when the current device happens to be it) — even when the model itself is
replicated. -/
theorem C5_criterion_device (model_name : String) (config : Config)
    (cur : ℕ) :
    (build_criterion model_name config cur).wrapperIds = none ∧
    (config.gpus.length = 0 →
      (build_criterion model_name config cur).residence = none) ∧
    (0 < config.gpus.length →
      (build_criterion model_name config cur).residence = some cur) := by
  refine ⟨?_, ?_, ?_⟩
  · unfold build_criterion
    by_cases hg : 0 < config.gpus.length <;> simp [hg, Placed.wrapperIds]
  · intro hl
    have hg : ¬ 0 < config.gpus.length := by omega
    unfold build_criterion
    simp [hg, Placed.residence]
  · intro hg
    unfold build_criterion
    simp [hg, Placed.residence]

/-- C5 witness: with one configured device (`exConfig.gpus = [0]`, current
device 0) the criterion carries no replication wrapper and resides on CUDA
device 0. -/
theorem C5_criterion_device_witness :
    (build_criterion "pon" exConfig 0).wrapperIds = none ∧
    (build_criterion "pon" exConfig 0).residence = some 0 :=
  ⟨(C5_criterion_device "pon" exConfig 0).1,
   (C5_criterion_device "pon" exConfig 0).2.2 (by decide)⟩

/-- C6: an unrecognized model-family name makes `build_model` return the
`ValueError` naming the offending value, and an unrecognized dataset-source
name makes `build_datasets` do likewise; in both cases the result is the
error itself — no model, no dataset, and no device placement is ever
produced, so the factories either fully succeed or raise with no partial
result. -/
theorem C6_unknown_name_error (model_name dataset_name : String)
    (config : Config) (splits : NuScenesSplits) (tdOut : TopdownNetwork → ℕ)
    (cur : ℕ) (h1 : model_name ≠ "pon") (h2 : model_name ≠ "hpon")
    (h3 : model_name ≠ "ved") (h4 : model_name ≠ "vpn")
    (h5 : dataset_name ≠ "nuscenes") :
    build_model model_name config tdOut cur
      = Except.error ("Unknown model name '" ++ model_name ++ "'") ∧
    build_datasets dataset_name splits config
      = Except.error ("Unknown dataset option '" ++ dataset_name ++ "'") := by
  constructor
  · simp [build_model, buildBaseModel, h1, h2, h3, h4, Except.map]
  · simp [build_datasets, h5]

/-- C6 witness: the concrete unknown names `resnet` and `argoverse` (the
latter's branch is commented out in the source) produce exactly the two
formatted error values. -/
theorem C6_unknown_name_error_witness :
    build_model "resnet" exConfig exTdOut 0
      = Except.error "Unknown model name 'resnet'" ∧
    build_datasets "argoverse" exSplits exConfig
      = Except.error "Unknown dataset option 'argoverse'" :=
  C6_unknown_name_error "resnet" "argoverse" exConfig exSplits exTdOut 0
    (by decide) (by decide) (by decide) (by decide) (by decide)

/-- C4: when the hold-out-calibration flag is set, the training scene set is
exactly `set(TRAIN_SCENES) - set(CALIBRATION_SCENES)`; when it is not, it is
exactly `set(TRAIN_SCENES)`. -/
theorem C4_train_scenes (splits : NuScenesSplits) (config : Config) :
    (config.hold_out_calibration = true →
      ((build_nuscenes_datasets splits config).1.sceneNames).map List.toFinset
        = some (splits.TRAIN_SCENES.toFinset \
            splits.CALIBRATION_SCENES.toFinset)) ∧
    (config.hold_out_calibration = false →
      ((build_nuscenes_datasets splits config).1.sceneNames).map List.toFinset
        = some splits.TRAIN_SCENES.toFinset) := by
  constructor
  · intro hc
    simp [build_nuscenes_datasets, hc, MapDataset.sceneNames,
      pySetDiff_toFinset]
  · intro hc
    simp [build_nuscenes_datasets, hc, MapDataset.sceneNames]

/-- C4 witness: on a concrete split record, holding out drops exactly the
calibration scene and not holding out keeps the full training set. -/
theorem C4_train_scenes_witness :
    ((build_nuscenes_datasets exSplits exConfigHold).1.sceneNames).map
        List.toFinset
      = some (exSplits.TRAIN_SCENES.toFinset \
          exSplits.CALIBRATION_SCENES.toFinset) ∧
    ((build_nuscenes_datasets exSplits exConfig).1.sceneNames).map
        List.toFinset
      = some exSplits.TRAIN_SCENES.toFinset :=
  ⟨(C4_train_scenes exSplits exConfigHold).1 rfl,
   (C4_train_scenes exSplits exConfig).2 rfl⟩

/-- C7: whenever `build_datasets` succeeds (i.e. for every valid source
name), the validation dataset it returns is built from the fixed
`VAL_SCENES` set, whatever the calibration flag says. -/
theorem C7_val_scenes (dataset_name : String) (splits : NuScenesSplits)
    (config : Config) (t v : MapDataset)
    (h : build_datasets dataset_name splits config = Except.ok (t, v)) :
    v.sceneNames = some splits.VAL_SCENES := by
  by_cases hn : dataset_name = "nuscenes"
  · rw [build_datasets, if_pos hn] at h
    injection h with h2
    have hv : v = (build_nuscenes_datasets splits config).2 := by rw [h2]
    rw [hv]
    simp [build_nuscenes_datasets, MapDataset.sceneNames]
  · rw [build_datasets, if_neg hn] at h
    exact Except.noConfusion h

/-- C7 witness: under the concrete split record the validation dataset's
scene list is exactly `VAL_SCENES`, with the calibration flag off. -/
theorem C7_val_scenes_witness :
    MapDataset.sceneNames (build_nuscenes_datasets exSplits exConfig).2
      = some exSplits.VAL_SCENES :=
  C7_val_scenes "nuscenes" exSplits exConfig
    (build_nuscenes_datasets exSplits exConfig).1
    (build_nuscenes_datasets exSplits exConfig).2 rfl

/-- C8: whenever `build_trainval_datasets` succeeds, the training dataset is
the augmentation wrapper around the base training dataset with the configured
horizontal-flip probability, and the validation dataset is not an instance of
the wrapper type. -/
theorem C8_augmentation (dataset_name : String) (splits : NuScenesSplits)
    (config : Config) (t v : MapDataset)
    (h : build_trainval_datasets dataset_name splits config
      = Except.ok (t, v)) :
    t = MapDataset.augmented (build_nuscenes_datasets splits config).1
        config.hflip ∧
    t.isAugmented = true ∧ v.isAugmented = false := by
  by_cases hn : dataset_name = "nuscenes"
  · rw [build_trainval_datasets, build_datasets, if_pos hn] at h
    simp [Except.map] at h
    obtain ⟨ht, hv⟩ := h
    subst ht
    subst hv
    refine ⟨rfl, rfl, ?_⟩
    simp [build_nuscenes_datasets, MapDataset.isAugmented]
  · rw [build_trainval_datasets, build_datasets, if_neg hn] at h
    simp [Except.map] at h

/-- C8 witness: under the concrete inputs, the returned train dataset is the
augmentation wrapper and the returned validation dataset is not. -/
theorem C8_augmentation_witness :
    (MapDataset.augmented (build_nuscenes_datasets exSplits exConfig).1
        exConfig.hflip).isAugmented = true ∧
    ((build_nuscenes_datasets exSplits exConfig).2).isAugmented = false := by
  have h := C8_augmentation "nuscenes" exSplits exConfig
    (MapDataset.augmented (build_nuscenes_datasets exSplits exConfig).1
      exConfig.hflip)
    (build_nuscenes_datasets exSplits exConfig).2 rfl
  exact ⟨h.2.1, h.2.2⟩

/-- C9: the `hpon` branch of `build_model` fixes the combination method to
the literal `stack` (independent of the configuration, which the statement
quantifies over) and gives the topdown decoder an input channel count of
`vtfm_channels + htfm_channels`, while the `pon` branch gives it
`vtfm_channels` alone. -/
theorem C9_hpon_structure (config : Config) (tdOut : TopdownNetwork → ℕ)
    (cur : ℕ) (mh mp : Placed Model)
    (hh : build_model "hpon" config tdOut cur = Except.ok mh)
    (hp : build_model "pon" config tdOut cur = Except.ok mp) :
    mh.payload.hponMethod = some "stack" ∧
    mh.payload.topdownInChannels
      = some (config.vtfm_channels + config.htfm_channels) ∧
    mp.payload.topdownInChannels = some config.vtfm_channels := by
  have hbase : ∀ (name : String) (m : Placed Model),
      build_model name config tdOut cur = Except.ok m →
      ∃ model0, buildBaseModel name config tdOut = Except.ok model0 ∧
        m.payload = model0 := by
    intro name m hm
    unfold build_model at hm
    cases hb : buildBaseModel name config tdOut with
    | error e => rw [hb] at hm; simp [Except.map] at hm
    | ok model0 =>
      rw [hb] at hm
      simp [Except.map] at hm
      refine ⟨model0, rfl, ?_⟩
      rw [← hm]
      exact payload_placeModel _ _ _
  obtain ⟨mh0, hbh, hph⟩ := hbase "hpon" mh hh
  obtain ⟨mp0, hbp, hpp⟩ := hbase "pon" mp hp
  rw [hph, hpp]
  rw [show buildBaseModel "hpon" config tdOut
      = (build_horizontally_aware_pyramid_occupancy_network config "stack"
          tdOut).map Model.hpon from rfl] at hbh
  rw [show buildBaseModel "pon" config tdOut
      = (build_pyramid_occupancy_network config tdOut).map Model.pon
      from rfl] at hbp
  have hhp : Model.hponMethod mh0 = some "stack" ∧
      Model.topdownInChannels mh0
        = some (config.vtfm_channels + config.htfm_channels) := by
    cases hi : build_horizontally_aware_pyramid_occupancy_network config
        "stack" tdOut with
    | error e => rw [hi] at hbh; simp [Except.map] at hbh
    | ok net =>
      rw [hi] at hbh
      simp [Except.map] at hbh
      subst hbh
      rw [build_horizontally_aware_pyramid_occupancy_network] at hi
      cases hr : reduceMul config.topdown.strides with
      | none => rw [hr] at hi; simp at hi
      | some p =>
        rw [hr] at hi
        simp at hi
        subst hi
        simp [Model.hponMethod, Model.topdownInChannels]
  have hpp2 : Model.topdownInChannels mp0 = some config.vtfm_channels := by
    cases hi : build_pyramid_occupancy_network config tdOut with
    | error e => rw [hi] at hbp; simp [Except.map] at hbp
    | ok net =>
      rw [hi] at hbp
      simp [Except.map] at hbp
      subst hbp
      rw [build_pyramid_occupancy_network] at hi
      cases hr : reduceMul config.topdown.strides with
      | none => rw [hr] at hi; simp at hi
      | some p =>
        rw [hr] at hi
        simp at hi
        subst hi
        simp [Model.topdownInChannels]
  exact ⟨hhp.1, hhp.2, hpp2⟩

/-- C9 witness: under `exConfig` (vtfm 64, htfm 32) the hpon model's method
is `stack` and its decoder input width is 96, while pon's is 64. -/
theorem C9_hpon_structure_witness :
    exPlacedHpon.payload.hponMethod = some "stack" ∧
    exPlacedHpon.payload.topdownInChannels
      = some (exConfig.vtfm_channels + exConfig.htfm_channels) ∧
    exPlacedPon.payload.topdownInChannels = some exConfig.vtfm_channels :=
  C9_hpon_structure exConfig exTdOut 0 exPlacedHpon exPlacedPon rfl rfl

end HPON
